import Mathlib

/-!
Verification development for the vector document-processing backend
(`backend/vector/`): text chunker, embedding text preparation, background
task queue, and similarity search.  Python strings are modelled as
`List Char` (a Python `str` is a sequence of code points); Python `float`
similarity scores are modelled as `ℚ`.
-/

set_option maxRecDepth 10000

namespace Chunker

/-- Model of Python `s.split()` on a code-point list: split on whitespace
runs and drop the empty pieces.  `List.splitOnP` cuts at every whitespace
character, producing empty segments inside runs, which the filter removes
exactly as CPython does. -/
def pwords (s : List Char) : List (List Char) :=
  (s.splitOnP fun c => c.isWhitespace).filter fun w => !w.isEmpty

/-- Model of Python `' '.join(ws)`. -/
def joinSp : List (List Char) → List Char
  | [] => []
  | [w] => w
  | w :: ws => w ++ ' ' :: joinSp ws

/-- Python `s.lstrip()` over our whitespace model. -/
def trimLeft (s : List Char) : List Char := s.dropWhile fun c => c.isWhitespace

/-- Python `s.rstrip()` over our whitespace model. -/
def trimRight (s : List Char) : List Char :=
  (s.reverse.dropWhile fun c => c.isWhitespace).reverse

/-- Python `s.strip()`. -/
def pstrip (s : List Char) : List Char := trimRight (trimLeft s)

/-- `SimpleTextChunker._get_overlap_text` (chunker.py lines 131-139): the
last `overlap_words` words of `text`, or all of `text` when it has no more
than `overlap_words` words; empty when `overlap_words <= 0` (here `= 0`,
the argument being a natural number). -/
def get_overlap_text (overlap_words : ℕ) (text : List Char) : List Char :=
  if overlap_words = 0 then []
  else
    let words := pwords text
    if words.length ≤ overlap_words then text
    else joinSp (words.drop (words.length - overlap_words))

/-- The trailing `min n (length ws)` elements of `ws`; this is what
`words[-n:]` keeps (everything when the list is short). -/
def tailWords (n : ℕ) (ws : List (List Char)) : List (List Char) :=
  ws.drop (ws.length - n)

/-- `TextChunk.metadata` fields built by `_create_chunk` (chunker.py lines
154-160).  The `created_at` wall-clock field is external nondeterminism
and is not modelled; no claim concerns it. -/
structure ChunkMetadata where
  filename : List Char
  chunk_type : String
  char_length : ℕ
  chunk_method : String
deriving DecidableEq

/-- The `TextChunk` dataclass (chunker.py lines 15-23). -/
structure TextChunk where
  chunk_id : List Char
  document_id : List Char
  content : List Char
  chunk_index : ℕ
  word_count : ℕ
  metadata : ChunkMetadata
deriving DecidableEq

/-- `SimpleTextChunker._create_chunk` (chunker.py lines 141-161).  The MD5
hex digest (`hashlib.md5(...).hexdigest()`) is an external stdlib
collaborator, passed in as `md5hex`; the hash input is the f-string
`"{document_id}_{index}_{content[:100]}"` and the chunk id appends the
first 8 digest characters to `"{document_id}_{index}_"`. -/
def create_chunk (md5hex : List Char → List Char) (document_id content : List Char)
    (index word_count : ℕ) (filename : List Char) : TextChunk :=
  let hashInput := document_id ++ '_' :: (Nat.repr index).data ++ '_' :: content.take 100
  { chunk_id := document_id ++ '_' :: (Nat.repr index).data ++ '_' :: (md5hex hashInput).take 8
    document_id := document_id
    content := content
    chunk_index := index
    word_count := word_count
    metadata :=
      { filename := filename
        chunk_type := "simple_text"
        char_length := content.length
        chunk_method := "sentence_based" } }

/-- Chunker parameters (`SimpleTextChunker.__init__`). -/
structure ChunkerConfig where
  chunk_size : ℕ
  overlap : ℕ
deriving DecidableEq

/-- The module-level chunker instance `text_chunker = SimpleTextChunker(chunk_size=512, overlap=50)`. -/
def text_chunker : ChunkerConfig := ⟨512, 50⟩

/-- Helper for `re.sub` of a whitespace run by a single space: state is
whether the previous character was whitespace. -/
def collapseWsGo : Bool → List Char → List Char
  | _, [] => []
  | prevWs, c :: rest =>
    if c.isWhitespace then
      if prevWs then collapseWsGo true rest else ' ' :: collapseWsGo true rest
    else c :: collapseWsGo false rest

/-- Characters removed by `re.sub(r'[\x00-\x1f\x7f-\x9f]', '', text)`. -/
def isCtrl (c : Char) : Bool :=
  c.toNat ≤ 0x1f || (0x7f ≤ c.toNat && c.toNat ≤ 0x9f)

/-- Helper for `re.sub(r'\n+', '\n', text)`: collapse newline runs. -/
def collapseNlGo : Bool → List Char → List Char
  | _, [] => []
  | prevNl, c :: rest =>
    if c = '\n' then
      if prevNl then collapseNlGo true rest else '\n' :: collapseNlGo true rest
    else c :: collapseNlGo false rest

/-- `SimpleTextChunker._clean_text_simple` (chunker.py lines 106-114):
collapse whitespace runs to one space, drop control characters, collapse
newline runs, strip. -/
def clean_text_simple (text : List Char) : List Char :=
  pstrip (collapseNlGo false ((collapseWsGo false text).filter fun c => !isCtrl c))

def isSentPunct (c : Char) : Bool := c = '.' || c = '!' || c = '?'

/-- Scanner for `re.split(r'[.!?]+\s+', text)`: a separator is a maximal
run of `.`/`!`/`?` followed by at least one whitespace character; the
punctuation and whitespace of a separator are consumed, everything else
goes into the current segment.  `cur` is the segment being built, `pb`
a pending punctuation run that may yet become a separator, `inSep`
records that a separator's whitespace is being skipped. -/
def sentSplitGo : List Char → List Char → List Char → Bool → List (List Char)
  | [], cur, pb, inSep =>
    if inSep then [[]] else [cur ++ pb]
  | c :: rest, cur, pb, inSep =>
    if inSep then
      if c.isWhitespace then sentSplitGo rest [] [] true
      else if isSentPunct c then sentSplitGo rest [] [c] false
      else sentSplitGo rest [c] [] false
    else if pb.isEmpty then
      if isSentPunct c then sentSplitGo rest cur [c] false
      else sentSplitGo rest (cur ++ [c]) [] false
    else
      if isSentPunct c then sentSplitGo rest cur (pb ++ [c]) false
      else if c.isWhitespace then cur :: sentSplitGo rest [] [] true
      else sentSplitGo rest (cur ++ pb ++ [c]) [] false

/-- The raw segments `re.split(r'[.!?]+\s+', text)` produces. -/
def rawSentenceSplit (text : List Char) : List (List Char) :=
  sentSplitGo text [] [] false

/-- The length filter of `_split_into_sentences` (chunker.py line 126):
`len(sentence) > 10 and len(sentence) < 1000`. -/
def sentenceLenOk (s : List Char) : Bool :=
  decide (10 < s.length) && decide (s.length < 1000)

/-- `SimpleTextChunker._split_into_sentences` (chunker.py lines 116-129):
regex split, strip each piece, keep the pieces passing the length filter. -/
def split_into_sentences (text : List Char) : List (List Char) :=
  ((rawSentenceSplit text).map pstrip).filter sentenceLenOk

/-- The sentence-packing loop of `chunk_text` (chunker.py lines 60-91).
`cur` is `current_chunk`, `cnt` is `current_word_count`, `idx` is
`chunk_index`, `acc` the chunks created so far. -/
def packGo (cfg : ChunkerConfig) (md5hex : List Char → List Char)
    (document_id filename : List Char) :
    List (List Char) → List Char → ℕ → ℕ → List TextChunk → List TextChunk
  | [], cur, cnt, idx, acc =>
    if pstrip cur ≠ [] then
      acc ++ [create_chunk md5hex document_id cur idx cnt filename]
    else acc
  | s :: rest, cur, cnt, idx, acc =>
    let sw := (pwords s).length
    if cnt + sw > cfg.chunk_size ∧ cur ≠ [] then
      let ov := get_overlap_text cfg.overlap cur
      let cur' := if ov ≠ [] then ov ++ ' ' :: s else s
      packGo cfg md5hex document_id filename rest cur' (pwords cur').length (idx + 1)
        (acc ++ [create_chunk md5hex document_id cur idx cnt filename])
    else
      let cur' := if cur ≠ [] then cur ++ ' ' :: s else s
      packGo cfg md5hex document_id filename rest cur' (cnt + sw) idx acc

/-- `SimpleTextChunker.chunk_text` (chunker.py lines 36-104): empty or
whitespace-only text gives no chunks; otherwise clean, split into
sentences (no sentences gives no chunks), then pack greedily with
overlap seeding. -/
def chunk_text (cfg : ChunkerConfig) (md5hex : List Char → List Char)
    (text document_id filename : List Char) : List TextChunk :=
  if text = [] ∨ pstrip text = [] then []
  else
    let sentences := split_into_sentences (clean_text_simple text)
    if sentences = [] then []
    else packGo cfg md5hex document_id filename sentences [] 0 0 []

end Chunker

namespace Chunker

@[simp]
theorem create_chunk_content (md5hex : List Char → List Char)
    (document_id content : List Char) (index word_count : ℕ) (filename : List Char) :
    (create_chunk md5hex document_id content index word_count filename).content = content := rfl

@[simp]
theorem pwords_nil : pwords [] = [] := rfl

theorem modifyHead_append_left (f : List Char → List Char)
    (l1 l2 : List (List Char)) (h : l1 ≠ []) :
    (l1 ++ l2).modifyHead f = l1.modifyHead f ++ l2 := by
  cases l1 with
  | nil => exact absurd rfl h
  | cons a t => rfl

theorem splitOnP_append_sep (p : Char → Bool) (c : Char) (hc : p c = true)
    (a b : List Char) : (a ++ c :: b).splitOnP p = a.splitOnP p ++ b.splitOnP p := by
  induction a with
  | nil => simp [List.splitOnP_cons, hc]
  | cons x a ih =>
    rw [List.cons_append, List.splitOnP_cons, List.splitOnP_cons, ih]
    by_cases hx : p x
    · simp [hx]
    · simp [hx, modifyHead_append_left _ _ _ (List.splitOnP_ne_nil p a)]

theorem pwords_append_space (a b : List Char) :
    pwords (a ++ ' ' :: b) = pwords a ++ pwords b := by
  unfold pwords
  rw [splitOnP_append_sep _ ' ' (by decide), List.filter_append]

theorem mem_splitOnP_no_sep (p : Char → Bool) (l : List Char) :
    ∀ w ∈ l.splitOnP p, ∀ x ∈ w, p x = false := by
  induction l with
  | nil =>
    intro w hw
    simp [List.splitOnP_nil] at hw
    subst hw
    intro x hx
    exact absurd hx (List.not_mem_nil x)
  | cons y l ih =>
    intro w hw x hx
    rw [List.splitOnP_cons] at hw
    by_cases hy : p y
    · rw [if_pos hy] at hw
      rcases List.mem_cons.mp hw with h | h
      · subst h; exact absurd hx (List.not_mem_nil x)
      · exact ih w h x hx
    · rw [if_neg hy] at hw
      rcases heq : l.splitOnP p with _ | ⟨hd, tl⟩
      · exact absurd heq (List.splitOnP_ne_nil p l)
      · rw [heq] at hw
        rcases List.mem_cons.mp hw with h | h
        · subst h
          rcases List.mem_cons.mp hx with h' | h'
          · subst h'; simpa using hy
          · exact ih hd (heq ▸ List.mem_cons_self hd tl) x h'
        · exact ih w (heq ▸ List.mem_cons_of_mem hd h) x hx

theorem pwords_props (s : List Char) :
    ∀ w ∈ pwords s, w ≠ [] ∧ ∀ c ∈ w, c.isWhitespace = false := by
  intro w hw
  unfold pwords at hw
  rw [List.mem_filter] at hw
  refine ⟨by simpa using hw.2, fun c hc => ?_⟩
  exact mem_splitOnP_no_sep _ s w hw.1 c hc

theorem pwords_single (w : List Char) (h1 : w ≠ [])
    (h2 : ∀ c ∈ w, c.isWhitespace = false) : pwords w = [w] := by
  unfold pwords
  have hs : w.splitOnP (fun c => c.isWhitespace) = [w] :=
    List.splitOnP_eq_single _ w (by intro x hx; simp [h2 x hx])
  rw [hs]
  simp [h1]

theorem pwords_joinSp (ws : List (List Char))
    (h : ∀ w ∈ ws, w ≠ [] ∧ ∀ c ∈ w, c.isWhitespace = false) :
    pwords (joinSp ws) = ws := by
  induction ws with
  | nil => rfl
  | cons w vs ih =>
    cases vs with
    | nil =>
      rw [joinSp]
      exact pwords_single w (h w (by simp)).1 (h w (by simp)).2
    | cons v vs' =>
      have hj : joinSp (w :: v :: vs') = w ++ ' ' :: joinSp (v :: vs') := rfl
      rw [hj, pwords_append_space,
        pwords_single w (h w (by simp)).1 (h w (by simp)).2,
        ih (fun u hu => h u (List.mem_cons_of_mem w hu))]
      rfl

theorem pwords_overlap (n : ℕ) (t : List Char) :
    pwords (get_overlap_text n t) = tailWords n (pwords t) := by
  unfold get_overlap_text tailWords
  by_cases h0 : n = 0
  · simp [h0, List.drop_length]
  · rw [if_neg h0]
    by_cases hlen : (pwords t).length ≤ n
    · rw [if_pos hlen, Nat.sub_eq_zero_of_le hlen, List.drop_zero]
    · rw [if_neg hlen]
      exact pwords_joinSp _ fun w hw => pwords_props t w (List.mem_of_mem_drop hw)

/-- The per-pair overlap invariant between a chunk content `a` and the
content `b` of the chunk that follows it: `b` starts with the trailing
`min overlap (word count of a)` words of `a`. -/
def overlapRel (cfg : ChunkerConfig) (a b : List Char) : Prop :=
  tailWords cfg.overlap (pwords a) <+: pwords b

theorem overlapRel_extend (cfg : ChunkerConfig) (x cur s : List Char)
    (h : overlapRel cfg x cur) :
    overlapRel cfg x (if cur ≠ [] then cur ++ ' ' :: s else s) := by
  by_cases hc : cur = []
  · rw [if_neg (by simpa using hc)]
    subst hc
    unfold overlapRel at h ⊢
    rw [pwords_nil] at h
    obtain ⟨r, hr⟩ := h
    rw [(List.append_eq_nil.mp hr).1]
    exact List.nil_prefix
  · rw [if_pos hc]
    unfold overlapRel at h ⊢
    rw [pwords_append_space]
    exact h.trans (List.prefix_append _ _)

theorem packGo_chain (cfg : ChunkerConfig) (md5hex : List Char → List Char)
    (doc fn : List Char) :
    ∀ (sents : List (List Char)) (cur : List Char) (cnt idx : ℕ) (acc : List TextChunk),
      List.Chain' (overlapRel cfg) (acc.map TextChunk.content ++ [cur]) →
      List.Chain' (overlapRel cfg)
        ((packGo cfg md5hex doc fn sents cur cnt idx acc).map TextChunk.content) := by
  intro sents
  induction sents with
  | nil =>
    intro cur cnt idx acc h
    rw [packGo]
    by_cases hs : pstrip cur ≠ []
    · rw [if_pos hs]
      simpa using h
    · rw [if_neg hs]
      exact (List.chain'_append.mp h).1
  | cons s rest ih =>
    intro cur cnt idx acc h
    rw [packGo]
    by_cases hcond : cnt + (pwords s).length > cfg.chunk_size ∧ cur ≠ []
    · rw [if_pos hcond]
      apply ih
      have hmap : (acc ++ [create_chunk md5hex doc cur idx cnt fn]).map TextChunk.content
          = acc.map TextChunk.content ++ [cur] := by simp
      rw [hmap]
      apply List.chain'_append.mpr
      refine ⟨h, List.chain'_singleton _, ?_⟩
      intro x hx y hy
      rw [List.getLast?_concat] at hx
      simp only [List.head?_cons, Option.mem_def, Option.some.injEq] at hx hy
      subst hx
      subst hy
      by_cases hov : get_overlap_text cfg.overlap cur = []
      · rw [if_neg (by simpa using hov)]
        unfold overlapRel
        have htail : tailWords cfg.overlap (pwords cur) = [] := by
          rw [← pwords_overlap, hov, pwords_nil]
        rw [htail]
        exact List.nil_prefix
      · rw [if_pos hov]
        unfold overlapRel
        rw [pwords_append_space, ← pwords_overlap]
        exact List.prefix_append _ _
    · rw [if_neg hcond]
      apply ih
      rcases List.chain'_append.mp h with ⟨h1, _, h3⟩
      apply List.chain'_append.mpr
      refine ⟨h1, List.chain'_singleton _, ?_⟩
      intro x hx y hy
      simp only [List.head?_cons, Option.mem_def, Option.some.injEq] at hy
      subst hy
      exact overlapRel_extend cfg x cur s (h3 x hx cur (by simp))

end Chunker

open Chunker in
/-- C8: for every input text producing chunks `c_0 .. c_n`, and every
`i ≥ 0` with `i+1 ≤ n`, the leading words of chunk `c_{i+1}`'s content
equal the trailing `overlap` words of chunk `c_i`'s content — all of
`c_i`'s words when it has fewer than `overlap` of them.  `tailWords
overlap ws` is exactly the trailing `min overlap (length ws)` words, and
the prefix relation states that `c_{i+1}`'s leading words equal them. -/
theorem c8_overlap_invariant (cfg : ChunkerConfig) (md5hex : List Char → List Char)
    (text document_id filename : List Char) :
    List.Chain'
      (fun a b => List.IsPrefix (tailWords cfg.overlap (pwords a.content)) (pwords b.content))
      (chunk_text cfg md5hex text document_id filename) := by
  rw [chunk_text]
  by_cases h1 : text = [] ∨ pstrip text = []
  · rw [if_pos h1]; exact List.chain'_nil
  · rw [if_neg h1]
    by_cases h2 : split_into_sentences (clean_text_simple text) = []
    · simp only [h2, if_pos]
      exact List.chain'_nil
    · simp only [if_neg h2]
      have hchain := packGo_chain cfg md5hex document_id filename
        (split_into_sentences (clean_text_simple text)) [] 0 0 []
        (by simp)
      exact (List.chain'_map TextChunk.content).mp hchain

open Chunker in
/-- C9 counterexample: the sentence filter keeps only lengths strictly
between 10 and 1000 (`len > 10 and len < 1000`), so the 10-character
sentence `"abcdefghij"` — which the claim says must be retained — is
discarded by `_split_into_sentences` and appears in no chunk. -/
theorem c9_counterexample :
    "abcdefghij".data ∈
      (rawSentenceSplit "abcdefghij. Second sentence here.".data).map pstrip ∧
    "abcdefghij".data.length = 10 ∧
    "abcdefghij".data ∉ split_into_sentences "abcdefghij. Second sentence here.".data ∧
    (chunk_text text_chunker (fun h => h) "abcdefghij. Second sentence here.".data
        "doc1".data "f1".data).map TextChunk.content
      = ["Second sentence here.".data] := by
  refine ⟨by decide, by decide, by decide, by decide⟩

open Chunker in
/-- C9 amended: a sentence is retained by `_split_into_sentences` exactly
when its stripped text has more than 10 and fewer than 1000 characters;
sentences of length exactly 10 (or exactly 1000) are discarded, the
bounds being strict. -/
theorem c9_amended (text s : List Char) :
    s ∈ split_into_sentences text ↔
      s ∈ (rawSentenceSplit text).map pstrip ∧ 10 < s.length ∧ s.length < 1000 := by
  simp [split_into_sentences, sentenceLenOk, List.mem_filter, and_assoc]

open Chunker in
/-- C10: the chunk id built by `_create_chunk` depends only on the
document id, the chunk index and the first 100 characters of the content;
word count, filename and the content past character 100 do not enter the
hash input `"{document_id}_{index}_{content[:100]}"` or the id. -/
theorem c10_chunk_id_first100 (md5hex : List Char → List Char)
    (document_id : List Char) (index : ℕ) (c1 c2 : List Char)
    (w1 w2 : ℕ) (f1 f2 : List Char) (h : c1.take 100 = c2.take 100) :
    (create_chunk md5hex document_id c1 index w1 f1).chunk_id =
    (create_chunk md5hex document_id c2 index w2 f2).chunk_id := by
  simp [create_chunk, h]

open Chunker in
/-- C10 witness: two contents agreeing on their first 100 characters but
differing at position 101 receive the same chunk id. -/
theorem c10_chunk_id_first100_witness :
    (List.replicate 101 'a').take 100 = (List.replicate 100 'a' ++ ['b']).take 100 ∧
    (List.replicate 101 'a') ≠ (List.replicate 100 'a' ++ ['b']) ∧
    (create_chunk (fun h => h) "doc".data (List.replicate 101 'a') 0 7 "f1".data).chunk_id =
    (create_chunk (fun h => h) "doc".data (List.replicate 100 'a' ++ ['b']) 0 9 "f2".data).chunk_id :=
  ⟨by decide, by decide,
    c10_chunk_id_first100 (fun h => h) "doc".data 0 _ _ 7 9 "f1".data "f2".data (by decide)⟩

namespace Embeddings

/-- `EmbeddingGenerator.max_text_length` (embeddings.py line 41). -/
def max_text_length : ℕ := 2000

/-- `EmbeddingGenerator.embedding_dimension` (embeddings.py line 40). -/
def embedding_dimension : ℕ := 384

/-- The text `EmbeddingGenerator.generate_embedding` (embeddings.py lines
74-151) hands to `SentenceTransformer.encode`: `none` when the source
returns an error `EmbeddingResult` before encoding (empty or
whitespace-only text); otherwise the stripped, truncated text with the
`"passage: "` prefix prepended.  The model itself is an external
collaborator and is assumed initialized; its own failures do not change
which text would be encoded. -/
def generate_embedding_input (text : List Char) : Option (List Char) :=
  if text = [] ∨ Chunker.pstrip text = [] then none
  else
    let cleaned := Chunker.pstrip text
    let cleaned := if cleaned.length > max_text_length then cleaned.take max_text_length else cleaned
    some ("passage: ".data ++ cleaned)

/-- `EmbeddingGenerator.generate_query_embedding` (embeddings.py lines
191-197): builds `f"query: {query.strip()}"` and passes it to
`generate_embedding`, which prepends its own `"passage: "` prefix. -/
def generate_query_embedding_input (query : List Char) : Option (List Char) :=
  generate_embedding_input ("query: ".data ++ Chunker.pstrip query)

end Embeddings

open Embeddings in
/-- C1: evaluation of the two embedding paths at a failing input.  The
passage path prefixes passage text with `"passage: "` as claimed, but the
query path does not embed the query with only the `"query: "` prefix: for
the query `"hello"` the text reaching the model is
`"passage: query: hello"`, which starts with the passage prefix and
carries both prefixes combined on one text. -/
theorem c1_query_double_prefix :
    generate_embedding_input "some document text".data
      = some "passage: some document text".data ∧
    generate_query_embedding_input "hello".data
      = some "passage: query: hello".data ∧
    "passage: query: hello".data.take 9 = "passage: ".data ∧
    ("passage: query: hello".data.drop 9).take 7 = "query: ".data := by
  refine ⟨by decide, by decide, by decide, by decide⟩

namespace Background

/-- `ProcessingStatus` (background.py lines 18-24). -/
inductive ProcessingStatus
  | pending
  | processing
  | completed
  | failed
  | retrying
deriving DecidableEq, Repr

/-- `BackgroundEmbeddingProcessor.max_retries` (background.py line 47). -/
def max_retries : ℕ := 3

/-- Status transitions `_process_embedding_task` (background.py lines
154-251) performs for one task, from one attempt onwards: each attempt
sets `processing`; a successful body sets `completed`; a failing body
increments `retry_count` and, while `retry_count <= max_retries`, sets
`retrying` and re-enqueues the same task, else sets `failed`.
`outcome k` tells whether attempt number `k` succeeds, and `remaining`
is `max_retries - retry_count`, so the guard `retry_count + 1 <=
max_retries` is exactly `remaining > 0`. -/
def runRetries (outcome : ℕ → Bool) : ℕ → ℕ → List ProcessingStatus
  | attempt, 0 =>
    if outcome attempt then [.processing, .completed] else [.processing, .failed]
  | attempt, remaining + 1 =>
    if outcome attempt then [.processing, .completed]
    else .processing :: .retrying :: runRetries outcome (attempt + 1) remaining

/-- Full status trace of a task: created `pending` by
`queue_document_for_processing` (background.py line 93), then processed by
the worker with up to `maxR` retries. -/
def taskStatusTrace (outcome : ℕ → Bool) (maxR : ℕ) : List ProcessingStatus :=
  .pending :: runRetries outcome 0 maxR

theorem count_retrying_runRetries (outcome : ℕ → Bool) :
    ∀ (remaining attempt : ℕ),
      (runRetries outcome attempt remaining).count .retrying ≤ remaining := by
  intro remaining
  induction remaining with
  | zero =>
    intro attempt
    rw [runRetries]
    by_cases h : outcome attempt = true <;> simp [h, List.count_cons]
  | succ r ih =>
    intro attempt
    rw [runRetries]
    by_cases h : outcome attempt = true
    · simp [h, List.count_cons]
    · have := ih (attempt + 1)
      simp [h, List.count_cons]
      omega

end Background

open Background in
/-- C4: a task whose every processing attempt fails goes
`pending → processing → retrying` exactly `max_retries = 3` times and then
`processing → failed`; the number of `retrying` transitions in any trace
never exceeds `max_retries` (last conjunct, for any outcome and bound). -/
theorem c4_retry_bound (outcome : ℕ → Bool) (h : ∀ n, outcome n = false) :
    taskStatusTrace outcome max_retries =
      [.pending, .processing, .retrying, .processing, .retrying,
       .processing, .retrying, .processing, .failed] ∧
    (taskStatusTrace outcome max_retries).count .retrying = max_retries ∧
    (taskStatusTrace outcome max_retries).getLast? = some .failed ∧
    ∀ (out : ℕ → Bool) (m : ℕ), (taskStatusTrace out m).count .retrying ≤ m := by
  have htrace : taskStatusTrace outcome max_retries =
      [.pending, .processing, .retrying, .processing, .retrying,
       .processing, .retrying, .processing, .failed] := by
    simp [taskStatusTrace, max_retries, runRetries, h]
  refine ⟨htrace, by rw [htrace]; rfl, by rw [htrace]; rfl, ?_⟩
  intro out m
  have := count_retrying_runRetries out m 0
  rw [taskStatusTrace]
  simp [List.count_cons]
  omega

open Background in
/-- C4 witness: the always-failing outcome realizes the bound. -/
theorem c4_retry_bound_witness :
    (∀ n, (fun _ : ℕ => false) n = false) ∧
    taskStatusTrace (fun _ => false) max_retries =
      [.pending, .processing, .retrying, .processing, .retrying,
       .processing, .retrying, .processing, .failed] :=
  ⟨fun _ => rfl, (c4_retry_bound (fun _ => false) (fun _ => rfl)).1⟩

namespace Background

/-- Python exception kinds raised inside `_process_embedding_task`. -/
inductive PyError
  | valueError (msg : String)
  | attributeError (msg : String)
deriving DecidableEq, Repr

/-- The attribute names an `EmbeddingGenerator` instance has: the fields
set in `__init__` (embeddings.py lines 38-44) and the methods defined by
the class (lines 46, 74, 153, 191, 199). -/
def embedding_generator_attrs : List String :=
  ["model_name", "embedding_dimension", "max_text_length", "vector_timeout",
   "model", "is_initialized",
   "initialize_model", "generate_embedding", "batch_generate_embeddings",
   "generate_query_embedding", "get_model_info"]

/-- The method name `_process_embedding_task` looks up on
`embedding_generator` at background.py line 192. -/
def called_batch_method : String := "generate_batch_embeddings"

/-- The document row the task's database lookup returns: `none` models a
missing row or NULL content. -/
structure TaskEnv where
  document_content : Option (List Char)

/-- The `try` body of `_process_embedding_task` (background.py lines
161-216) up to its first raised exception: missing or empty document
content raises `ValueError`; an empty chunk list raises `ValueError`;
otherwise the lookup of `generate_batch_embeddings` on the
`EmbeddingGenerator` instance is reached — when the attribute existed the
body would go on to persist chunks and complete (modelled `.ok ()`; the
c2 theorem shows this branch is unreachable), and when it does not exist
Python raises `AttributeError`. -/
def attempt_body (md5hex : List Char → List Char) (env : TaskEnv)
    (document_id filename : List Char) : Except PyError Unit :=
  match env.document_content with
  | none => .error (.valueError "Document content not found")
  | some content =>
    if content = [] then .error (.valueError "Document content not found")
    else
      let chunks := Chunker.chunk_text Chunker.text_chunker md5hex content document_id filename
      if chunks = [] then .error (.valueError "No chunks generated from document")
      else if embedding_generator_attrs.contains called_batch_method then
        .ok ()
      else .error (.attributeError
        "EmbeddingGenerator object has no attribute generate_batch_embeddings")

/-- Whether one attempt of `_process_embedding_task` succeeds. -/
def attempt_ok (md5hex : List Char → List Char) (env : TaskEnv)
    (document_id filename : List Char) : Bool :=
  match attempt_body md5hex env document_id filename with
  | .ok _ => true
  | .error _ => false

/-- An environment whose document content chunks successfully, reaching
the embedding step. -/
def sampleEnv : TaskEnv := ⟨some "This is a valid document sentence for chunking.".data⟩

end Background

open Background in
/-- C2: the `EmbeddingGenerator` class has no attribute named
`generate_batch_embeddings` (it defines `batch_generate_embeddings`), so
a task whose content is present and chunkable fails its embedding step
with `AttributeError`; no attempt of `_process_embedding_task` can
succeed, and for every stream of per-attempt environments the task trace
ends in `failed` after exhausting retries and never reaches `completed`. -/
theorem c2_embedding_attribute_error_forces_failure :
    embedding_generator_attrs.contains called_batch_method = false ∧
    attempt_body (fun h => h) sampleEnv "doc1".data "f1".data
      = .error (.attributeError
          "EmbeddingGenerator object has no attribute generate_batch_embeddings") ∧
    (∀ (md5hex : List Char → List Char) (env : TaskEnv) (d f : List Char),
      attempt_ok md5hex env d f = false) ∧
    ∀ (md5hex : List Char → List Char) (envs : ℕ → TaskEnv) (d f : List Char),
      taskStatusTrace (fun k => attempt_ok md5hex (envs k) d f) max_retries =
        [.pending, .processing, .retrying, .processing, .retrying,
         .processing, .retrying, .processing, .failed] ∧
      ProcessingStatus.completed ∉
        taskStatusTrace (fun k => attempt_ok md5hex (envs k) d f) max_retries := by
  have hattr : embedding_generator_attrs.contains called_batch_method = false := by decide
  have hmem : called_batch_method ∉ embedding_generator_attrs := by decide
  have hok : ∀ (md5hex : List Char → List Char) (env : TaskEnv) (d f : List Char),
      attempt_ok md5hex env d f = false := by
    intro md5hex env d f
    rw [attempt_ok, attempt_body]
    rcases env.document_content with _ | content
    · rfl
    · by_cases hc : content = []
      · simp [hc]
      · by_cases hch : Chunker.chunk_text Chunker.text_chunker md5hex content d f = []
        · simp [hc, hch]
        · simp [hc, hch, hmem]
  refine ⟨hattr, rfl, hok, ?_⟩
  intro md5hex envs d f
  have h : ∀ k, attempt_ok md5hex (envs k) d f = false := fun k => hok md5hex (envs k) d f
  constructor
  · simp [taskStatusTrace, max_retries, runRetries, h]
  · simp [taskStatusTrace, max_retries, runRetries, h]

namespace Background

/-- The `ProcessingTask` fields relevant to queueing (background.py lines
26-38); `created_at` is a wall-clock value, modelled through the
processor's `clock` counter below. -/
structure BTask where
  task_id : String
  document_id : String
  filename : String
  status : ProcessingStatus
  retry_count : ℕ
  priority : Bool
deriving DecidableEq

/-- The queueing state of `BackgroundEmbeddingProcessor`: the
`active_tasks` dict (insertion-ordered, modelled as an association list),
the FIFO `processing_queue`, and a clock supplying the
`int(datetime.now().timestamp())` value used in task ids (modelled as a
counter that advances per enqueue; only the id string depends on it). -/
structure BPState where
  active_tasks : List (String × BTask)
  queue : List BTask
  clock : ℕ
deriving DecidableEq

/-- The task id f-string `"embed_{document_id}_{timestamp}"` (background.py line 87). -/
def make_task_id (document_id : String) (ts : ℕ) : String :=
  "embed_" ++ document_id ++ "_" ++ toString ts

/-- `queue_document_for_processing` (background.py lines 79-108): build
the task, record it in `active_tasks`, put it on the queue, return the
task id.  The `try/except` re-raises any exception; `fail` injects the
possibility that the body raises for a given document (in which case the
state is unchanged and the error propagates to the caller). -/
def queue_document_for_processing (fail : String → String → Bool) (st : BPState)
    (document_id filename : String) (priority : Bool) :
    Except String (String × BPState) :=
  if fail document_id filename then
    .error ("Error queueing document " ++ filename)
  else
    let task_id := make_task_id document_id st.clock
    let task : BTask :=
      { task_id := task_id, document_id := document_id, filename := filename,
        status := .pending, retry_count := 0, priority := priority }
    .ok (task_id,
      { active_tasks := st.active_tasks ++ [(task_id, task)],
        queue := st.queue ++ [task],
        clock := st.clock + 1 })

/-- The `for doc in documents` loop of `queue_bulk_documents`
(background.py lines 110-128), inside one `try`: each document is
enqueued with `priority=False` and its id appended to `task_ids`; the
first exception aborts the loop and the `except` branch returns `[]`
(the state keeps the documents already enqueued). -/
def queue_bulk_go (fail : String → String → Bool) (st : BPState) (acc : List String) :
    List (String × String) → BPState × List String
  | [] => (st, acc)
  | (d, f) :: rest =>
    match queue_document_for_processing fail st d f false with
    | .ok (tid, st') => queue_bulk_go fail st' (acc ++ [tid]) rest
    | .error _ => (st, [])

/-- `queue_bulk_documents` (background.py lines 110-128). -/
def queue_bulk_documents (fail : String → String → Bool) (st : BPState)
    (documents : List (String × String)) : BPState × List String :=
  queue_bulk_go fail st [] documents

/-- The task ids bulk enqueueing is expected to return when every enqueue
succeeds: one id per document, in input order, with consecutive clock
stamps. -/
def expected_bulk_task_ids (clock : ℕ) : List (String × String) → List String
  | [] => []
  | (d, _) :: rest => make_task_id d clock :: expected_bulk_task_ids (clock + 1) rest

theorem queue_bulk_go_all_ok (fail : String → String → Bool) :
    ∀ (docs : List (String × String)) (st : BPState) (acc : List String),
      (∀ d ∈ docs, fail d.1 d.2 = false) →
      (queue_bulk_go fail st acc docs).2 = acc ++ expected_bulk_task_ids st.clock docs ∧
      (queue_bulk_go fail st acc docs).1.queue.map BTask.document_id
        = st.queue.map BTask.document_id ++ docs.map Prod.fst := by
  intro docs
  induction docs with
  | nil => intro st acc h; simp [queue_bulk_go, expected_bulk_task_ids]
  | cons p rest ih =>
    intro st acc h
    obtain ⟨d, f⟩ := p
    have hd : fail d f = false := h (d, f) (by simp)
    simp only [queue_bulk_go, queue_document_for_processing, hd, Bool.false_eq_true, if_false]
    refine ⟨?_, ?_⟩
    · rw [(ih _ _ (fun x hx => h x (List.mem_cons_of_mem _ hx))).1]
      simp [expected_bulk_task_ids]
    · rw [(ih _ _ (fun x hx => h x (List.mem_cons_of_mem _ hx))).2]
      simp

theorem queue_bulk_go_fail (fail : String → String → Bool) (bad : String × String)
    (hbad : fail bad.1 bad.2 = true) :
    ∀ (pre : List (String × String)) (post : List (String × String))
      (st : BPState) (acc : List String),
      (∀ x ∈ pre, fail x.1 x.2 = false) →
      (queue_bulk_go fail st acc (pre ++ bad :: post)).2 = [] := by
  intro pre
  induction pre with
  | nil =>
    intro post st acc _
    obtain ⟨d, f⟩ := bad
    rw [List.nil_append, queue_bulk_go, queue_document_for_processing]
    simp only at hbad
    simp [hbad]
  | cons p rest ih =>
    intro post st acc h
    obtain ⟨d, f⟩ := p
    have hd : fail d f = false := h (d, f) (by simp)
    rw [List.cons_append, queue_bulk_go, queue_document_for_processing]
    simp only [hd, Bool.false_eq_true, if_false]
    exact ih post _ _ (fun x hx => h x (List.mem_cons_of_mem _ hx))

end Background

open Background in
/-- C6 counterexample: with three documents where only the second's
enqueue raises, `queue_bulk_documents` returns `[]` — not the task ids of
the first and third documents — and the third document is never enqueued
(the queue holds only the first), although the third's enqueue would have
succeeded.  A failure on one item therefore does prevent the remaining
items from being enqueued and their ids from being returned. -/
theorem c6_counterexample :
    (queue_bulk_documents (fun d _ => d == "d2") ⟨[], [], 0⟩
        [("d1", "f1"), ("d2", "f2"), ("d3", "f3")]).2 = [] ∧
    ((queue_bulk_documents (fun d _ => d == "d2") ⟨[], [], 0⟩
        [("d1", "f1"), ("d2", "f2"), ("d3", "f3")]).1.queue.map BTask.document_id) = ["d1"] ∧
    (fun d (_ : String) => d == "d2") "d1" "f1" = false ∧
    (fun d (_ : String) => d == "d2") "d3" "f3" = false := by
  refine ⟨rfl, rfl, rfl, rfl⟩

open Background in
/-- C6 amended: when every enqueue succeeds, `queue_bulk_documents`
enqueues the documents in input order and returns their task ids in the
same order; but on the first enqueue failure it stops, the remaining
items are not enqueued, and it returns an empty list instead of the ids
of the items that were enqueued. -/
theorem c6_amended (fail : String → String → Bool) (st : BPState)
    (docs : List (String × String)) :
    ((∀ d ∈ docs, fail d.1 d.2 = false) →
      (queue_bulk_documents fail st docs).2 = expected_bulk_task_ids st.clock docs ∧
      (queue_bulk_documents fail st docs).1.queue.map BTask.document_id
        = st.queue.map BTask.document_id ++ docs.map Prod.fst) ∧
    ∀ (pre : List (String × String)) (bad : String × String) (post : List (String × String)),
      docs = pre ++ bad :: post → (∀ x ∈ pre, fail x.1 x.2 = false) →
      fail bad.1 bad.2 = true →
      (queue_bulk_documents fail st docs).2 = [] := by
  constructor
  · intro h
    have := queue_bulk_go_all_ok fail docs st [] h
    exact ⟨by simpa [queue_bulk_documents] using this.1,
      by simpa [queue_bulk_documents] using this.2⟩
  · intro pre bad post hdocs hpre hbad
    rw [queue_bulk_documents, hdocs]
    exact queue_bulk_go_fail fail bad hbad pre post st [] hpre

open Background in
/-- C6 witness: the amended claim at concrete inputs — all-success
returns ids in order, and the mixed-success scenario returns `[]`. -/
theorem c6_amended_witness :
    (queue_bulk_documents (fun _ _ => false) ⟨[], [], 0⟩
        [("d1", "f1"), ("d2", "f2"), ("d3", "f3")]).2
      = expected_bulk_task_ids 0 [("d1", "f1"), ("d2", "f2"), ("d3", "f3")] ∧
    (queue_bulk_documents (fun d _ => d == "d2") ⟨[], [], 0⟩
        [("d1", "f1"), ("d2", "f2"), ("d3", "f3")]).2 = [] :=
  ⟨((c6_amended (fun _ _ => false) ⟨[], [], 0⟩ _).1 (fun _ _ => rfl)).1,
    (c6_amended (fun d _ => d == "d2") ⟨[], [], 0⟩ _).2
      [("d1", "f1")] ("d2", "f2") [("d3", "f3")] rfl
      (by intro x hx; simp at hx; rw [hx]; rfl) rfl⟩

namespace Search

/-- A stored row of the `document_chunks` table joined with `documents`,
as the similarity query reads it.  The pgvector expression
`1 - (dc.embedding <=> query_vector)` is computed by the store for the
query vector the search was invoked with; since every claim fixes one
query, each row carries that value in `sim` (`has_embedding` models
`dc.embedding IS NOT NULL`). -/
structure StoreRow where
  chunk_id : String
  document_id : String
  content : String
  chunk_index : ℕ
  metadata : String
  document_name : String
  has_embedding : Bool
  sim : ℚ
deriving DecidableEq

/-- The `SearchResult` dataclass (identical in search_fixed.py lines
17-26 and search_sync.py lines 16-25). -/
structure SearchResult where
  chunk_id : String
  document_id : String
  content : String
  similarity_score : ℚ
  metadata : String
  document_name : String
  chunk_index : ℕ
deriving DecidableEq

/-- Row-to-result conversion (search_fixed.py lines 116-124 /
search_sync.py lines 97-105; metadata is passed through already parsed). -/
def rowToResult (r : StoreRow) : SearchResult :=
  { chunk_id := r.chunk_id, document_id := r.document_id, content := r.content,
    similarity_score := r.sim, metadata := r.metadata,
    document_name := r.document_name, chunk_index := r.chunk_index }

/-- The optional `dc.document_id IN (...)` clause: Python's
`if document_ids:` skips the filter for `None` and for an empty list. -/
def docFilterOk (document_ids : Option (List String)) (r : StoreRow) : Bool :=
  match document_ids with
  | none => true
  | some ids => if ids.isEmpty then true else ids.contains r.document_id

/-- Stable descending insertion by a rational key: an element is placed
before the first list element whose key is not greater, so equal keys
keep their original relative order — the store's natural row order breaks
ties, per the `ORDER BY` contract. -/
def insertByDesc (key : α → ℚ) (a : α) : List α → List α
  | [] => [a]
  | x :: xs => if key a < key x then x :: insertByDesc key a xs else a :: x :: xs

/-- Stable sort by descending rational key (`ORDER BY ... ASC` on the
cosine distance is descending order on similarity). -/
def sortByDesc (key : α → ℚ) (l : List α) : List α :=
  l.foldr (insertByDesc key) []

/-- The `WHERE` clause: embedding present, inclusive similarity
threshold, optional document filter. -/
def matchingRows (store : List StoreRow) (threshold : ℚ)
    (document_ids : Option (List String)) : List StoreRow :=
  store.filter fun r => r.has_embedding && decide (threshold ≤ r.sim) && docFilterOk document_ids r

theorem length_insertByDesc (key : α → ℚ) (a : α) (l : List α) :
    (insertByDesc key a l).length = l.length + 1 := by
  induction l with
  | nil => rfl
  | cons x xs ih =>
    rw [insertByDesc]
    by_cases h : key a < key x
    · simp [h, ih]
    · simp [h]

theorem length_sortByDesc (key : α → ℚ) (l : List α) :
    (sortByDesc key l).length = l.length := by
  induction l with
  | nil => rfl
  | cons x xs ih =>
    show (insertByDesc key x (sortByDesc key xs)).length = xs.length + 1
    rw [length_insertByDesc, ih]

theorem length_filter_imp (p q : α → Bool) (h : ∀ a, p a = true → q a = true)
    (l : List α) : (l.filter p).length ≤ (l.filter q).length := by
  induction l with
  | nil => simp
  | cons x xs ih =>
    by_cases hp : p x = true
    · rw [List.filter_cons_of_pos hp, List.filter_cons_of_pos (h x hp)]
      simpa using ih
    · rw [List.filter_cons_of_neg (by simpa using hp)]
      by_cases hq : q x = true
      · rw [List.filter_cons_of_pos hq]
        simp only [List.length_cons]
        exact le_trans ih (Nat.le_succ _)
      · rw [List.filter_cons_of_neg (by simpa using hq)]
        exact ih

end Search

namespace SearchFixed

open Search

/-- `VectorSearchService.__init__` constants of search_fixed.py lines
34-37 (`0.3` similarity threshold). -/
def embedding_dim : ℕ := 384

def similarity_threshold : ℚ := 3/10

def max_results_default : ℕ := 10

/-- The `try` body of `search_similar_chunks` (search_fixed.py lines
51-128): resolve defaults, validate the query dimension — raising
`ValueError` on mismatch — then run the SQL: filter by `WHERE`, order by
distance ascending (similarity descending, ties in store order), apply
`LIMIT`, convert rows. -/
def searchBody (query_embedding : List ℚ) (store : List StoreRow)
    (limit : Option ℕ) (sim_threshold : Option ℚ)
    (document_ids : Option (List String)) : Except String (List SearchResult) :=
  let lim := limit.getD max_results_default
  let th := sim_threshold.getD similarity_threshold
  if query_embedding.length ≠ embedding_dim then
    .error ("Query embedding dimension " ++ toString query_embedding.length
      ++ " does not match expected " ++ toString embedding_dim)
  else
    .ok (((sortByDesc StoreRow.sim (matchingRows store th document_ids)).take lim).map rowToResult)

/-- `search_similar_chunks` (search_fixed.py lines 39-134): the whole
body runs inside `try`, and the `except` handler catches every exception
— including the dimension `ValueError` — and returns `[]`. -/
def search_similar_chunks (query_embedding : List ℚ) (store : List StoreRow)
    (limit : Option ℕ) (sim_threshold : Option ℚ)
    (document_ids : Option (List String)) : List SearchResult :=
  match searchBody query_embedding store limit sim_threshold document_ids with
  | .ok rs => rs
  | .error _ => []

end SearchFixed

/-- A 128-dimensional query vector (wrong dimension). -/
def q128 : List ℚ := List.replicate 128 0

/-- A 384-dimensional query vector (configured dimension). -/
def q384 : List ℚ := List.replicate 384 0

open Search in
/-- A stored row that matches any threshold up to 0.9. -/
def c3row : StoreRow :=
  { chunk_id := "c1", document_id := "docA", content := "chunk text", chunk_index := 0,
    metadata := "m", document_name := "a.pdf", has_embedding := true, sim := 9/10 }

open Search SearchFixed in
/-- C3 counterexample: for a query vector of dimension 128 the dimension
check raises `ValueError` inside the `try` (second conjunct), but the
catch-all handler swallows it and `search_similar_chunks` returns the
empty list — indistinguishable from a no-match result — even though the
store holds a row that the same search with a 384-dimensional vector
returns.  No contract error reaches the caller. -/
theorem c3_counterexample :
    search_similar_chunks q128 [c3row] none none none = [] ∧
    (∃ msg, searchBody q128 [c3row] none none none = .error msg) ∧
    search_similar_chunks q384 [c3row] none none none = [rowToResult c3row] := by
  refine ⟨rfl, ⟨_, rfl⟩, ?_⟩
  show (match searchBody q384 [c3row] none none none with
    | .ok rs => rs | .error _ => []) = [rowToResult c3row]
  rw [searchBody]
  norm_num [q384, matchingRows, docFilterOk, c3row, sortByDesc, insertByDesc,
    similarity_threshold, max_results_default, embedding_dim]

open Search SearchFixed in
/-- C3 amended: a query vector whose length differs from the configured
384 makes the body raise `ValueError` (second conjunct), but
`search_similar_chunks` catches every exception and returns `[]` to the
caller for any store, limit, threshold and document filter: the contract
error is logged, not surfaced, and the caller sees a silent empty result. -/
theorem c3_amended (query_embedding : List ℚ) (store : List Search.StoreRow)
    (limit : Option ℕ) (sim_threshold : Option ℚ) (document_ids : Option (List String))
    (h : query_embedding.length ≠ SearchFixed.embedding_dim) :
    search_similar_chunks query_embedding store limit sim_threshold document_ids = [] ∧
    ∃ msg, searchBody query_embedding store limit sim_threshold document_ids
      = .error msg := by
  have hb : searchBody query_embedding store limit sim_threshold document_ids
      = .error ("Query embedding dimension " ++ toString query_embedding.length
        ++ " does not match expected " ++ toString SearchFixed.embedding_dim) := by
    rw [searchBody]
    exact if_pos h
  rw [search_similar_chunks, hb]
  exact ⟨rfl, ⟨_, rfl⟩⟩

open Search SearchFixed in
/-- C3 witness: the amended claim at the 128-dimensional query. -/
theorem c3_amended_witness :
    q128.length ≠ SearchFixed.embedding_dim ∧
    (search_similar_chunks q128 [c3row] (some 5) (some 0) none = [] ∧
      ∃ msg, searchBody q128 [c3row] (some 5) (some 0) none = .error msg) :=
  ⟨by decide, c3_amended q128 [c3row] (some 5) (some 0) none (by decide)⟩

open Search SearchFixed in
/-- C7: for a fixed query vector, store, limit and document filter,
raising the similarity threshold never increases the number of results
`search_similar_chunks` returns. -/
theorem c7_threshold_monotone (query_embedding : List ℚ) (store : List Search.StoreRow)
    (limit : Option ℕ) (document_ids : Option (List String)) (t1 t2 : ℚ) (h : t1 ≤ t2) :
    (search_similar_chunks query_embedding store limit (some t2) document_ids).length ≤
    (search_similar_chunks query_embedding store limit (some t1) document_ids).length := by
  by_cases hdim : query_embedding.length ≠ embedding_dim
  · have e2 : search_similar_chunks query_embedding store limit (some t2) document_ids = [] := by
      rw [search_similar_chunks, searchBody]
      rw [if_pos hdim]
    rw [e2]
    exact Nat.zero_le _
  · have e : ∀ t : ℚ, search_similar_chunks query_embedding store limit (some t) document_ids
        = ((sortByDesc StoreRow.sim (matchingRows store t document_ids)).take
            (limit.getD max_results_default)).map rowToResult := by
      intro t
      rw [search_similar_chunks, searchBody]
      rw [if_neg hdim]
      rfl
    rw [e t1, e t2]
    simp only [List.length_map, List.length_take, length_sortByDesc]
    refine min_le_min le_rfl ?_
    apply length_filter_imp
    intro r hr
    simp only [Bool.and_eq_true, decide_eq_true_eq] at hr ⊢
    exact ⟨⟨hr.1.1, le_trans h hr.1.2⟩, hr.2⟩

open Search SearchFixed in
/-- C7 witness: thresholds 0 and 1 on a two-row store. -/
theorem c7_threshold_monotone_witness :
    (0 : ℚ) ≤ 1 ∧
    (search_similar_chunks q384 [c3row] none (some 1) none).length ≤
    (search_similar_chunks q384 [c3row] none (some 0) none).length :=
  ⟨zero_le_one, c7_threshold_monotone q384 [c3row] none none 0 1 zero_le_one⟩

namespace SearchSync

open Search

/-- `VectorSearchService.__init__` constants of search_sync.py lines
33-36 (`0.5` similarity threshold). -/
def embedding_dim : ℕ := 384

def similarity_threshold : ℚ := 1/2

def max_results_default : ℕ := 10

/-- The `EmbeddingResult` dataclass (embeddings.py lines 23-30); the
float `processing_time` is irrelevant to the claims and omitted. -/
structure EmbeddingResult where
  success : Bool
  embedding : Option (List ℚ)
  error : Option String
  text_length : ℕ
deriving DecidableEq

/-- The Python value passed as `query_embedding`: the code is dynamically
typed, and `search_with_query_text` (search_sync.py line 137) passes the
whole `EmbeddingResult` object where `search_similar_chunks` expects a
vector. -/
inductive QueryArg
  | vec (v : List ℚ)
  | embRes (r : EmbeddingResult)
deriving DecidableEq

/-- Python `len(query_embedding)`: defined for a list, raises
`TypeError` for an `EmbeddingResult` (dataclasses define no `__len__`). -/
def pyLen : QueryArg → Except String ℕ
  | .vec v => .ok v.length
  | .embRes _ => .error "object of type EmbeddingResult has no len()"

/-- The `try` body of `search_similar_chunks` (search_sync.py lines
49-116): resolve defaults, take `len(query_embedding)` (which itself can
raise), validate the dimension, then run the SQL as in the fixed
variant. -/
def searchBody (query : QueryArg) (store : List StoreRow)
    (limit : Option ℕ) (sim_threshold : Option ℚ)
    (document_ids : Option (List String)) : Except String (List SearchResult) :=
  let lim := limit.getD max_results_default
  let th := sim_threshold.getD similarity_threshold
  match pyLen query with
  | .error e => .error e
  | .ok n =>
    if n ≠ embedding_dim then
      .error ("Query embedding dimension " ++ toString n
        ++ " does not match expected " ++ toString embedding_dim)
    else
      .ok (((sortByDesc StoreRow.sim (matchingRows store th document_ids)).take lim).map rowToResult)

/-- `search_similar_chunks` (search_sync.py lines 38-120): the `except`
handler catches every exception and returns `[]`. -/
def search_similar_chunks (query : QueryArg) (store : List StoreRow)
    (limit : Option ℕ) (sim_threshold : Option ℚ)
    (document_ids : Option (List String)) : List SearchResult :=
  match searchBody query store limit sim_threshold document_ids with
  | .ok rs => rs
  | .error _ => []

/-- `search_with_query_text` (search_sync.py lines 122-154): obtain the
query embedding result from the generator (injected collaborator, the
`asyncio.run(embedding_generator.generate_query_embedding(query_text))`
call), keep going — a dataclass instance is always truthy, so
`if not query_embedding:` never fires — and hand the whole
`EmbeddingResult` object to `search_similar_chunks` as the query. -/
def search_with_query_text (generate_query_embedding : String → EmbeddingResult)
    (store : List StoreRow) (query_text : String) (limit : Option ℕ)
    (sim_threshold : Option ℚ) (document_ids : Option (List String)) : List SearchResult :=
  let query_embedding := generate_query_embedding query_text
  search_similar_chunks (.embRes query_embedding) store limit sim_threshold document_ids

/-- The per-document accumulator built by the aggregation loop of
`search_documents_by_content` (search_sync.py lines 179-199):
`document_scores[doc_id]` and `document_info[doc_id]` merged. -/
structure DocAgg where
  document_id : String
  document_name : String
  scores : List ℚ
  best_chunk : String
  chunks_found : ℕ
deriving DecidableEq

/-- Python `max` on a list of floats (callers only apply it to nonempty
lists; the empty case is unreachable). -/
def pymax : List ℚ → ℚ
  | [] => 0
  | x :: xs => xs.foldl max x

/-- One loop iteration for a chunk whose document already has an entry
(search_sync.py lines 194-199): append the score, bump `chunks_found`,
and replace `best_chunk` when the new score strictly exceeds the maximum
of the previously recorded scores (the conditional expression at line
198 evaluates, after the append, `score > max(scores[:-1]) if
len(scores) > 1 else True`). -/
def updateAgg (a : DocAgg) (c : SearchResult) : DocAgg :=
  let scores' := a.scores ++ [c.similarity_score]
  { a with
    scores := scores'
    chunks_found := a.chunks_found + 1
    best_chunk :=
      if 1 < scores'.length then
        if pymax scores'.dropLast < c.similarity_score then c.content else a.best_chunk
      else c.content }

/-- One loop iteration of the aggregation (search_sync.py lines 183-199):
first chunk of a document creates its entry (scores `[score]`,
`chunks_found = 1`, `best_chunk` the chunk's content — the line-198
conditional is vacuously true for a singleton score list); later chunks
update it.  Python dicts iterate in insertion order, modelled by an
ordered association list. -/
def upsertChunk (aggs : List DocAgg) (c : SearchResult) : List DocAgg :=
  if aggs.any fun a => a.document_id == c.document_id then
    aggs.map fun a => if a.document_id == c.document_id then updateAgg a c else a
  else
    aggs ++ [{ document_id := c.document_id, document_name := c.document_name,
               scores := [c.similarity_score], best_chunk := c.content, chunks_found := 1 }]

/-- A document-level result (the dict built at search_sync.py lines
208-214). -/
structure DocumentResult where
  document_id : String
  document_name : String
  similarity_score : ℚ
  preview_content : String
  matching_chunks : ℕ
deriving DecidableEq

/-- Document scoring (search_sync.py lines 201-214): the document score
is the mean of the top-2 recorded chunk scores (`sorted(scores,
reverse=True)[:2]`), the preview is the best chunk truncated to 300
characters. -/
def finalizeAgg (a : DocAgg) : DocumentResult :=
  let top_scores := (sortByDesc id a.scores).take 2
  { document_id := a.document_id
    document_name := a.document_name
    similarity_score := top_scores.sum / (top_scores.length : ℚ)
    preview_content := a.best_chunk.take 300 ++ "..."
    matching_chunks := a.chunks_found }

/-- The whole aggregation of `search_documents_by_content` from
chunk-level results to unsorted document results. -/
def aggregateDocs (chunk_results : List SearchResult) : List DocumentResult :=
  (chunk_results.foldl upsertChunk []).map finalizeAgg

/-- `search_documents_by_content` (search_sync.py lines 156-222): run the
chunk-level text search with limit `3 * limit`, return `[]` when it finds
nothing, otherwise aggregate per document, sort documents by score
descending (stable) and truncate to `limit`. -/
def search_documents_by_content (generate_query_embedding : String → EmbeddingResult)
    (store : List StoreRow) (query_text : String) (limit : ℕ) : List DocumentResult :=
  let chunk_results :=
    search_with_query_text generate_query_embedding store query_text (some (limit * 3)) none none
  if chunk_results.isEmpty then []
  else (sortByDesc DocumentResult.similarity_score (aggregateDocs chunk_results)).take limit

end SearchSync

open Search SearchSync in
/-- The store of the C5 scenario: document A stores chunks with
similarity 0.9, 0.5, 0.5 to the query; document B stores 0.8, 0.8. -/
def c5store : List StoreRow :=
  [{ chunk_id := "a1", document_id := "docA", content := "A chunk one", chunk_index := 0,
     metadata := "m", document_name := "a.pdf", has_embedding := true, sim := 9/10 },
   { chunk_id := "a2", document_id := "docA", content := "A chunk two", chunk_index := 1,
     metadata := "m", document_name := "a.pdf", has_embedding := true, sim := 1/2 },
   { chunk_id := "a3", document_id := "docA", content := "A chunk three", chunk_index := 2,
     metadata := "m", document_name := "a.pdf", has_embedding := true, sim := 1/2 },
   { chunk_id := "b1", document_id := "docB", content := "B chunk one", chunk_index := 0,
     metadata := "m", document_name := "b.pdf", has_embedding := true, sim := 4/5 },
   { chunk_id := "b2", document_id := "docB", content := "B chunk two", chunk_index := 1,
     metadata := "m", document_name := "b.pdf", has_embedding := true, sim := 4/5 }]

open Search SearchSync in
/-- A successful query-embedding result, as the generator collaborator
would return it. -/
def c5gen : String → EmbeddingResult :=
  fun _ => { success := true, embedding := some q384, error := none, text_length := 5 }

open Search SearchSync in
/-- C5 counterexample: on the claim's scenario store with `limit = 1`,
`search_documents_by_content` does not rank document B above document A —
it returns the empty list (for every query), because the chunk-level
search receives the `EmbeddingResult` object itself as the query vector,
its `len()` raises `TypeError`, and the catch-all handler turns the
search into `[]`.  Document B is ranked nowhere. -/
theorem c5_counterexample :
    search_documents_by_content c5gen c5store "tell me about the documents" 1 = [] ∧
    "docB" ∉ (search_documents_by_content c5gen c5store "tell me about the documents" 1).map
        DocumentResult.document_id :=
  ⟨rfl, by intro hmem; rw [show search_documents_by_content c5gen c5store
      "tell me about the documents" 1 = [] from rfl] at hmem; exact absurd hmem (by simp)⟩

open Search SearchSync in
/-- C5 amended: (1) `search_documents_by_content` returns the empty list
for every generator, store, query and limit — the chunk-level search is
handed the `EmbeddingResult` object instead of its `.embedding` vector,
fails, and is caught into `[]`.  (2)(3) Even with the query vector passed
correctly, the claim's ranking would not hold: with `limit = 1` the
chunk search keeps only the `3 × 1` highest-scoring chunks `[0.9 (A),
0.8 (B), 0.8 (B)]`, so document A is scored `0.9` (mean of top-2 of its
single retrieved score) and document B `0.8`, and the aggregation ranks
document A above document B — B never outranks A in this scenario. -/
theorem c5_amended :
    (∀ (gen : String → EmbeddingResult) (store : List Search.StoreRow) (q : String) (lim : ℕ),
      search_documents_by_content gen store q lim = []) ∧
    (search_similar_chunks (.vec q384) c5store (some 3) none none).map
        (fun r => (r.document_id, r.similarity_score)) =
      [("docA", (9:ℚ)/10), ("docB", 4/5), ("docB", 4/5)] ∧
    ((sortByDesc DocumentResult.similarity_score
        (aggregateDocs (search_similar_chunks (.vec q384) c5store (some 3) none none))).take 1).map
        (fun d => (d.document_id, d.similarity_score)) = [("docA", (9:ℚ)/10)] := by
  refine ⟨fun gen store q lim => rfl, ?_, ?_⟩
  · norm_num [search_similar_chunks, searchBody, pyLen, q384, matchingRows, docFilterOk,
      c5store, sortByDesc, insertByDesc, similarity_threshold, rowToResult,
      SearchSync.embedding_dim]
  · norm_num +decide [search_similar_chunks, searchBody, pyLen, q384, matchingRows, docFilterOk,
      c5store, sortByDesc, insertByDesc, similarity_threshold, rowToResult, aggregateDocs,
      upsertChunk, updateAgg, finalizeAgg, pymax, SearchSync.embedding_dim]
